import Mathlib

/-!
Shallow embedding of the moodicious-recipe-buddy front-end widgets:
the voice-guidance panel (`VoiceGuidance.tsx`), the chat widget
(`ChatBot` in the same file), and the two recipe-card variants
(image fallback handling).  Component-local state is modelled as
explicit state records; event handlers and effects become state
transition functions; browser calls (speech synthesis, timers) are
modelled by the data they would receive.
-/

namespace Moodicious

/-! ## String helpers modelling the JavaScript string operations used -/

/-- Whitespace characters recognised by the JavaScript regular expression
class `\s` (restricted to the ASCII range, which is all the code relies on). -/
def jsWhitespace (c : Char) : Bool :=
  c = ' ' || c = '\t' || c = '\n' || c = '\r' || c = '\x0b' || c = '\x0c'

/-- Models JavaScript `String.prototype.toLowerCase` (ASCII range). -/
def strToLower (s : String) : String := String.mk (s.toList.map Char.toLower)

/-- Models JavaScript `String.prototype.trim`: drop leading and trailing
whitespace. -/
def strTrim (s : String) : String :=
  String.mk (((s.toList.dropWhile jsWhitespace).reverse.dropWhile jsWhitespace).reverse)

/-- Models JavaScript `s.includes(pat)`: substring containment. -/
def includesSubstr (s pat : String) : Bool :=
  (s.toList.tails).any (fun t => pat.toList.isPrefixOf t)

/-! ## Voice guidance (`VoiceGuidance` component)

State fields of the component that the verified behaviour depends on:
`isMuted`, `isPlaying`, `currentStep`, `selectedLanguage`,
`showLanguageSelector`.  `currentStep` is an `Int` because the JavaScript
comparisons `currentStep < instructions.length - 1` and
`currentStep === instructions.length - 1` are on signed numbers. -/

structure VGState where
  isMuted : Bool
  isPlaying : Bool
  currentStep : Int
  selectedLanguage : String
  showLanguageSelector : Bool
deriving DecidableEq, Repr

/-- The `useState` initial values of the component. -/
def initialVGState : VGState :=
  { isMuted := false
    isPlaying := false
    currentStep := 0
    selectedLanguage := "en-US"
    showLanguageSelector := false }

/-- The value `instructions.length - 1` as the JavaScript code computes it. -/
def lastIndex (instructions : List String) : Int :=
  (instructions.length : Int) - 1

/-- The bounds property claimed for the step index. -/
def stepInBounds (instructions : List String) (s : VGState) : Prop :=
  0 ≤ s.currentStep ∧ s.currentStep ≤ lastIndex instructions

instance (instructions : List String) (s : VGState) :
    Decidable (stepInBounds instructions s) :=
  inferInstanceAs (Decidable (0 ≤ s.currentStep ∧ s.currentStep ≤ lastIndex instructions))

/-- `nextStep` handler: advance only when strictly before the last index. -/
def nextStep (instructions : List String) (s : VGState) : VGState :=
  if s.currentStep < lastIndex instructions then
    { s with currentStep := s.currentStep + 1 }
  else s

/-- `prevStep` handler: go back only when strictly after index 0. -/
def prevStep (s : VGState) : VGState :=
  if s.currentStep > 0 then
    { s with currentStep := s.currentStep - 1 }
  else s

/-- Delay (ms) of the `setTimeout` used by the utterance `onend` handler
before advancing to the next step. -/
def autoAdvanceDelayMs : Nat := 1000

/-- The utterance `onend` handler (including the delayed `setCurrentStep`
of its first branch): on a non-final step while playing, advance by one;
on the final step while playing, stop playback; otherwise do nothing. -/
def onUtteranceEnd (instructions : List String) (s : VGState) : VGState :=
  if s.currentStep < lastIndex instructions ∧ s.isPlaying then
    { s with currentStep := s.currentStep + 1 }
  else if s.currentStep = lastIndex instructions ∧ s.isPlaying then
    { s with isPlaying := false }
  else s

/-- `toggleMute` handler: flip `isMuted`; when unmuted and playing,
also stop playback (both conditions read the pre-toggle value). -/
def toggleMute (s : VGState) : VGState :=
  let s1 := { s with isMuted := !s.isMuted }
  if !s.isMuted ∧ s.isPlaying then { s1 with isPlaying := false } else s1

/-- The icon rendered for the mute button: `VolumeX` when muted,
`Volume2` otherwise. -/
def muteIcon (s : VGState) : String :=
  if s.isMuted then "VolumeX" else "Volume2"

/-- `changeLanguage` handler (the state part): select the language and
close the selector. -/
def changeLanguage (langCode : String) (s : VGState) : VGState :=
  { s with selectedLanguage := langCode, showLanguageSelector := false }

/-- JavaScript indexing `instructions[currentStep]` with a signed index. -/
def getInstr (instructions : List String) (i : Int) : Option String :=
  if 0 ≤ i then instructions[i.toNat]? else none

/-- The text-and-language content of a `SpeechSynthesisUtterance` as the
component constructs it. -/
structure Utterance where
  text : String
  lang : String
deriving DecidableEq, Repr

/-- `speakCurrentStep`: returns the utterance passed to
`speechSynthesis.speak`, or `none` when the early return is taken
(muted, index out of range, or empty instruction string, which is falsy). -/
def speakCurrentStep (instructions : List String) (s : VGState) : Option Utterance :=
  if s.isMuted then none
  else
    match getInstr instructions s.currentStep with
    | none => none
    | some instr =>
      if instr = "" then none
      else
        some { text := "Step " ++ toString (s.currentStep + 1) ++ ": " ++ instr
               lang := s.selectedLanguage }

/-- What the playback effect asks the speech-synthesis engine to do. -/
inductive SpeechAction where
  | speak : Utterance → SpeechAction
  | cancel : SpeechAction
  | noop : SpeechAction
deriving DecidableEq, Repr

/-- The effect reacting to `isPlaying`/`isMuted`/`currentStep`/language
changes: speak the current step when playing and not muted, otherwise
cancel any existing utterance. `utteranceExists` models whether
`utterance.current` is non-null. -/
def playbackEffect (instructions : List String) (utteranceExists : Bool)
    (s : VGState) : SpeechAction :=
  if s.isPlaying ∧ ¬s.isMuted then
    match speakCurrentStep instructions s with
    | some u => SpeechAction.speak u
    | none => SpeechAction.noop
  else if utteranceExists then SpeechAction.cancel
  else SpeechAction.noop

/-! ## Chat widget (`ChatBot` component) -/

inductive Sender where
  | user : Sender
  | bot : Sender
deriving DecidableEq, Repr

/-- A chat message. `id` is the stringified `Date.now()` value used by the
code, `timestamp` the epoch-millisecond clock reading. -/
structure Message where
  id : String
  text : String
  sender : Sender
  timestamp : Nat
deriving DecidableEq, Repr

/-- Component state of the chat widget that the verified behaviour
depends on. `message` is the input-field draft. -/
structure ChatState where
  isOpen : Bool
  isMinimized : Bool
  message : String
  messages : List Message
  isTyping : Bool
deriving DecidableEq, Repr

/-- The first keyword group of the reply branching. -/
def chatKeywordGroup1 (lower : String) : Bool :=
  includesSubstr lower "recipe" || includesSubstr lower "cook" ||
  includesSubstr lower "food" || includesSubstr lower "meal"

/-- The greeting keyword group of the reply branching. -/
def chatKeywordGroup2 (lower : String) : Bool :=
  includesSubstr lower "hello" || includesSubstr lower "hi" ||
  includesSubstr lower "hey"

def replyRecipes : String :=
  "I can help you find recipes! Try selecting a mood first, or you can ask me about specific ingredients or dishes."

def replyGreeting : String :=
  "Hello there! How can I help with your cooking today?"

def replyThanks : String :=
  "You\x27re welcome! Let me know if you need anything else."

def replyMood : String :=
  "Your mood can greatly influence what foods might satisfy you. Try selecting a mood to see matching recipes!"

def replyDefault : String :=
  "I\x27m not sure how to respond to that. Could you ask about recipes or cooking?"

/-- The keyword branching inside `handleSendMessage`'s response timeout:
lower-case the user message, then test the keyword groups in order. -/
def chatbotReply (message : String) : String :=
  let lowerMessage := strToLower message
  if chatKeywordGroup1 lowerMessage then replyRecipes
  else if chatKeywordGroup2 lowerMessage then replyGreeting
  else if includesSubstr lowerMessage "thank" then replyThanks
  else if includesSubstr lowerMessage "mood" then replyMood
  else replyDefault

/-- `handleSendMessage` (the synchronous part): when the draft trims to
empty, return unchanged and schedule nothing; otherwise append the user
message, clear the draft, set the typing flag, and schedule a bot
response for the sent text (the scheduled text is returned in the
second component). -/
def handleSendMessage (now : Nat) (s : ChatState) : ChatState × Option String :=
  if strTrim s.message = "" then (s, none)
  else
    ({ s with
        messages := s.messages ++
          [{ id := toString now, text := s.message, sender := Sender.user, timestamp := now }]
        message := ""
        isTyping := true },
     some s.message)

/-- The `setTimeout` body scheduled by `handleSendMessage`: append the bot
reply for the sent text and clear the typing flag. The bot message id is
`(Date.now() + 100).toString()`. -/
def botResponseTimeout (sentText : String) (now : Nat) (s : ChatState) : ChatState :=
  { s with
      messages := s.messages ++
        [{ id := toString (now + 100), text := chatbotReply sentText,
           sender := Sender.bot, timestamp := now }]
      isTyping := false }

/-- The welcome message constructed by the open-chat effect. -/
def welcomeMessage (now : Nat) : Message :=
  { id := toString now
    text := "Hello! I\x27m your recipe assistant. How can I help you today?"
    sender := Sender.bot
    timestamp := now }

/-- The effect generating the welcome message: only when the chat is open
and the message list is empty, set the list to the single welcome
message. -/
def welcomeEffect (now : Nat) (s : ChatState) : ChatState :=
  if s.isOpen ∧ s.messages.length = 0 then
    { s with messages := [welcomeMessage now] }
  else s

/-- The mood-change effect (its nested timeouts composed): when a mood is
set (non-empty, matching the JavaScript truthiness test) and the chat is
open, append a bot message carrying the mood response obtained from
`getChatbotResponse` (passed in as `moodResponse`; that function lives in
`moodRecipeData`, outside the modelled sources) and clear the typing
flag. -/
def moodResponseEffect (currentMood : Option String) (moodResponse : String)
    (now : Nat) (s : ChatState) : ChatState :=
  match currentMood with
  | some mood =>
    if mood ≠ "" ∧ s.isOpen then
      { s with
          messages := s.messages ++
            [{ id := toString now, text := moodResponse,
               sender := Sender.bot, timestamp := now }]
          isTyping := false }
    else s
  | none => s

/-! ## Recipe card, first variant (`src/unnamed/part_000`) -/

/-- A character of the JavaScript regular expression class `\w`
(ASCII word character). -/
def isWordChar (c : Char) : Bool := c.isAlphanum || c = '_'

/-- Helper for `collapseSpaces`: the boolean tracks whether the previous
character belonged to a whitespace run (so the run's plus sign was
already emitted). -/
def collapseSpacesAux : Bool → List Char → List Char
  | _, [] => []
  | inRun, c :: rest =>
    if jsWhitespace c then
      if inRun then collapseSpacesAux true rest
      else '+' :: collapseSpacesAux true rest
    else c :: collapseSpacesAux false rest

/-- Replace each maximal run of whitespace by a single plus sign,
modelling `.replace(/\s+/g, '+')`. -/
def collapseSpaces (l : List Char) : List Char := collapseSpacesAux false l

/-- The `searchQuery` computed by both URL builders of the first variant:
lower-case the recipe name, delete characters outside `\w` and `\s`
(i.e. `.replace(/[^\w\s]/gi, '')`), then collapse whitespace runs to
`+`. -/
def searchQuery (recipeName : String) : String :=
  String.mk (collapseSpaces
    (((strToLower recipeName).toList).filter (fun c => isWordChar c || jsWhitespace c)))

/-- `getRecipeImageUrl` of the first variant. -/
def getRecipeImageUrl0 (recipeName : String) : String :=
  "https://source.unsplash.com/featured/?" ++ searchQuery recipeName ++
  ",food,dish,recipe&fit=crop&w=600&h=350"

/-- `getBackupImageUrl` of the first variant. `rand` is the stringified
value of the `Math.random()` call interpolated into the URL. -/
def getBackupImageUrl0 (recipeName : String) (rand : String) : String :=
  "https://source.unsplash.com/random/?" ++ searchQuery recipeName ++
  ",food&fit=crop&w=600&h=350&random=" ++ rand

/-- State of the first recipe-card variant relevant to image fallback. -/
structure RC0State where
  imageError : Bool
  imageUrl : String
deriving DecidableEq, Repr

/-- `handleImageError` of the first variant: record the error and switch
the image source to the backup URL (which embeds a fresh random value). -/
def RC0handleImageError (recipeName : String) (rand : String) (_s : RC0State) : RC0State :=
  { imageError := true, imageUrl := getBackupImageUrl0 recipeName rand }

/-! ## Recipe card, second variant (`src/unnamed/part_001`) -/

/-- Characters that JavaScript `encodeURIComponent` leaves unescaped. -/
def isUriUnreserved (c : Char) : Bool :=
  c.isAlphanum || c = '-' || c = '_' || c = '.' || c = '!' ||
  c = '~' || c = '*' || c = '\x27' || c = '(' || c = ')'

/-- Upper-case hexadecimal digit for a value below 16. -/
def hexDigitChar (n : Nat) : Char :=
  if n < 10 then Char.ofNat (48 + n) else Char.ofNat (55 + n)

/-- Percent-encoding of one byte. -/
def percentEncodeByte (b : Nat) : List Char :=
  ['%', hexDigitChar (b / 16), hexDigitChar (b % 16)]

/-- The UTF-8 byte sequence of a character, as byte values. -/
def utf8Bytes (c : Char) : List Nat :=
  let n := c.toNat
  if n < 128 then [n]
  else if n < 2048 then [192 + n / 64, 128 + n % 64]
  else if n < 65536 then [224 + n / 4096, 128 + (n / 64) % 64, 128 + n % 64]
  else [240 + n / 262144, 128 + (n / 4096) % 64, 128 + (n / 64) % 64, 128 + n % 64]

/-- Models JavaScript `encodeURIComponent`: unreserved characters pass
through, all others are percent-encoded as their UTF-8 bytes. -/
def encodeURIComponent (s : String) : String :=
  String.mk (s.toList.flatMap (fun c =>
    if isUriUnreserved c then [c]
    else (utf8Bytes c).flatMap percentEncodeByte))

/-- The placeholder shown immediately when the image-loading effect
starts. -/
def loadingPlaceholderUrl : String :=
  "https://placehold.co/600x350/f8f9fa/6c757d?text=Loading..."

/-- `getBackupImageUrl` of the second variant: a placehold.co URL carrying
the recipe name. -/
def getBackupImageUrl1 (recipeName : String) : String :=
  "https://placehold.co/600x350/f8f9fa/6c757d?text=" ++ encodeURIComponent recipeName

/-- The fallback image set by the `img.onerror` handler inside the
loading effect. -/
def onErrorFallbackUrl : String :=
  "https://images.unsplash.com/photo-1504674900247-0877df9cc836?auto=format&fit=crop&w=600&h=350&q=80"

/-- The fallback image set by the `<img>` element's `onError` handler
(`handleImageError`). -/
def imgTagErrorFallbackUrl : String :=
  "https://images.unsplash.com/photo-1606787366850-de6330128bfc?auto=format&fit=crop&w=600&h=350&q=80"

/-- Duration (ms) of the `setTimeout` armed by the image-loading effect. -/
def imageLoadTimeoutMs : Nat := 5000

/-- State of one image-load lifecycle of the second recipe-card variant:
the displayed source, the loading flag, and whether the fallback timer
is still armed (i.e. `clearTimeout` has not run). -/
structure RC1State where
  imageUrl : String
  imageLoading : Bool
  timerArmed : Bool
deriving DecidableEq, Repr

/-- Start of the image-loading effect: guarded by the truthiness of
`recipe.name`; shows the loading placeholder, sets the loading flag and
arms the fallback timer. -/
def RC1effectStart (recipeName : String) (s : RC1State) : RC1State :=
  if recipeName ≠ "" then
    { imageUrl := loadingPlaceholderUrl, imageLoading := true, timerArmed := true }
  else s

/-- The fallback timer firing: only possible while armed; if the card is
still loading, switch to the backup URL and clear the loading flag. -/
def RC1timeoutFires (recipeName : String) (s : RC1State) : RC1State :=
  if s.timerArmed then
    if s.imageLoading then
      { imageUrl := getBackupImageUrl1 recipeName, imageLoading := false, timerArmed := false }
    else { s with timerArmed := false }
  else s

/-- `img.onload`: cancel the timer, adopt the loaded source, clear the
loading flag. -/
def RC1onLoad (src : String) (_s : RC1State) : RC1State :=
  { imageUrl := src, imageLoading := false, timerArmed := false }

/-- `img.onerror`: cancel the timer, switch to the fallback food image,
clear the loading flag. -/
def RC1onError (_s : RC1State) : RC1State :=
  { imageUrl := onErrorFallbackUrl, imageLoading := false, timerArmed := false }

/-- `handleImageError` of the second variant (the `<img>` `onError`
prop): switch to the reliable food placeholder. -/
def RC1handleImageError (s : RC1State) : RC1State :=
  { s with imageUrl := imgTagErrorFallbackUrl }

/-! ## Theorems for the claims -/

/-- Claim C1 as stated is false: with an empty instruction list, the
initial state has `currentStep = 0`, which violates
`currentStep <= instructions.length - 1 = -1`. -/
theorem claim1_counterexample : ¬ stepInBounds [] initialVGState := by decide

/-- Claim C1, amended to nonempty instruction lists: for every nonempty
instruction list, the current step index satisfies
`0 <= currentStep <= instructions.length - 1` at initialization, and the
bound is preserved by `nextStep`, `prevStep`, and the automatic advance
performed when an utterance ends. -/
theorem claim1_step_index_in_bounds (instructions : List String)
    (h : instructions ≠ []) :
    stepInBounds instructions initialVGState ∧
    (∀ s, stepInBounds instructions s →
      stepInBounds instructions (nextStep instructions s)) ∧
    (∀ s, stepInBounds instructions s → stepInBounds instructions (prevStep s)) ∧
    (∀ s, stepInBounds instructions s →
      stepInBounds instructions (onUtteranceEnd instructions s)) := by
  have hlen : 0 < instructions.length := List.length_pos.mpr h
  refine ⟨?_, ?_, ?_, ?_⟩
  · unfold stepInBounds lastIndex initialVGState
    dsimp only
    omega
  · intro s hs
    obtain ⟨m, p, c, l, sel⟩ := s
    unfold nextStep
    split_ifs with hlt
    all_goals
      unfold stepInBounds lastIndex at *
      dsimp only at *
      omega
  · intro s hs
    obtain ⟨m, p, c, l, sel⟩ := s
    unfold prevStep
    split_ifs with hgt
    all_goals
      unfold stepInBounds lastIndex at *
      dsimp only at *
      omega
  · intro s hs
    obtain ⟨m, p, c, l, sel⟩ := s
    unfold onUtteranceEnd
    split_ifs with hadv hend
    all_goals
      unfold stepInBounds lastIndex at *
      dsimp only at *
      omega

/-- Witness for the amended claim C1 at the singleton list. -/
theorem claim1_witness :
    stepInBounds ["a"] initialVGState ∧
    stepInBounds ["a"] (nextStep ["a"] initialVGState) :=
  ⟨(claim1_step_index_in_bounds ["a"] (by decide)).1,
   (claim1_step_index_in_bounds ["a"] (by decide)).2.1 initialVGState
     (claim1_step_index_in_bounds ["a"] (by decide)).1⟩

/-- Claim C3: the `onend` sequencer is a linear step-advance. While
playing, ending the utterance of a non-final step increments the index by
exactly one (after the fixed 1000 ms timer delay); ending the utterance
of the final step leaves the index unchanged and turns playback off. -/
theorem claim3_linear_advance (instructions : List String) (s : VGState)
    (hplay : s.isPlaying = true) :
    autoAdvanceDelayMs = 1000 ∧
    (s.currentStep < lastIndex instructions →
      onUtteranceEnd instructions s = { s with currentStep := s.currentStep + 1 }) ∧
    (s.currentStep = lastIndex instructions →
      onUtteranceEnd instructions s = { s with isPlaying := false }) := by
  refine ⟨rfl, ?_, ?_⟩
  · intro hlt
    unfold onUtteranceEnd
    simp [hlt, hplay]
  · intro heq
    have hnlt : ¬ s.currentStep < lastIndex instructions := by omega
    unfold onUtteranceEnd
    simp [hnlt, heq, hplay]

/-- Witness for claim C3 at a two-step list: from step 0 the ended
utterance advances to step 1; from the final step 1 playback stops. -/
theorem claim3_witness :
    onUtteranceEnd ["a", "b"] { initialVGState with isPlaying := true } =
      { initialVGState with isPlaying := true, currentStep := 1 } ∧
    onUtteranceEnd ["a", "b"] { initialVGState with isPlaying := true, currentStep := 1 } =
      { initialVGState with isPlaying := false, currentStep := 1 } := by
  constructor
  · have h := (claim3_linear_advance ["a", "b"]
      { initialVGState with isPlaying := true } rfl).2.1 (by decide)
    rw [h]; decide
  · have h := (claim3_linear_advance ["a", "b"]
      { initialVGState with isPlaying := true, currentStep := 1 } rfl).2.2 (by decide)
    rw [h]

/-- Claim C7: one `toggleMute` negates `isMuted` (which selects the
rendered icon) and two consecutive `toggleMute` calls restore it. -/
theorem claim7_toggle_mute (s : VGState) :
    (toggleMute s).isMuted = !s.isMuted ∧
    (toggleMute (toggleMute s)).isMuted = s.isMuted ∧
    muteIcon (toggleMute s) = (if s.isMuted then "Volume2" else "VolumeX") := by
  cases s with
  | mk m p c l sel =>
    cases m <;> cases p <;> simp [toggleMute, muteIcon]

/-- Claim C8: `changeLanguage code` sets the selected language to `code`,
and every utterance synthesized from a state whose selected language is
`code` carries `lang = code`. -/
theorem claim8_change_language (langCode : String) (s : VGState) :
    (changeLanguage langCode s).selectedLanguage = langCode ∧
    (∀ instructions s2 u, s2.selectedLanguage = langCode →
      speakCurrentStep instructions s2 = some u → u.lang = langCode) := by
  refine ⟨rfl, ?_⟩
  intro instructions s2 u hl hs
  unfold speakCurrentStep at hs
  split_ifs at hs with hmut
  cases hgi : getInstr instructions s2.currentStep with
  | none => rw [hgi] at hs; cases hs
  | some instr =>
    rw [hgi] at hs
    dsimp only at hs
    split_ifs at hs with hemp
    injection hs with hu
    rw [← hu, ← hl]

/-- Witness for claim C8: after switching to French, the utterance for
the single instruction is spoken with `lang = "fr-FR"`. -/
theorem claim8_witness :
    (changeLanguage "fr-FR" initialVGState).selectedLanguage = "fr-FR" ∧
    ({ text := "Step 1: mix", lang := "fr-FR" } : Utterance).lang = "fr-FR" :=
  ⟨(claim8_change_language "fr-FR" initialVGState).1,
   (claim8_change_language "fr-FR" initialVGState).2 ["mix"]
     (changeLanguage "fr-FR" initialVGState)
     { text := "Step 1: mix", lang := "fr-FR" } rfl (by decide)⟩

/-- Claim C9: while muted, `speakCurrentStep` issues no speak call, and
the playback effect cancels an existing utterance instead of speaking. -/
theorem claim9_muted_never_speaks (instructions : List String)
    (utteranceExists : Bool) (s : VGState) (h : s.isMuted = true) :
    speakCurrentStep instructions s = none ∧
    (utteranceExists = true →
      playbackEffect instructions utteranceExists s = SpeechAction.cancel) := by
  constructor
  · unfold speakCurrentStep
    simp [h]
  · intro hu
    unfold playbackEffect
    simp [h, hu]

/-- Witness for claim C9 in the muted initial state with an existing
utterance. -/
theorem claim9_witness :
    speakCurrentStep ["a"] { initialVGState with isMuted := true } = none ∧
    playbackEffect ["a"] true { initialVGState with isMuted := true } =
      SpeechAction.cancel :=
  ⟨(claim9_muted_never_speaks ["a"] true
      { initialVGState with isMuted := true } rfl).1,
   (claim9_muted_never_speaks ["a"] true
      { initialVGState with isMuted := true } rfl).2 rfl⟩

/-- Claim C4: the bot reply is selected from the fixed canned-response
list by case-insensitive substring matching on the message, testing the
keyword groups in the fixed priority order
recipe/cook/food/meal, then hello/hi/hey, then thank, then mood, with the
fixed default reply when no keyword occurs. -/
theorem claim4_canned_replies (m : String) :
    (chatKeywordGroup1 (strToLower m) = true → chatbotReply m = replyRecipes) ∧
    (chatKeywordGroup1 (strToLower m) = false →
      chatKeywordGroup2 (strToLower m) = true → chatbotReply m = replyGreeting) ∧
    (chatKeywordGroup1 (strToLower m) = false →
      chatKeywordGroup2 (strToLower m) = false →
      includesSubstr (strToLower m) "thank" = true → chatbotReply m = replyThanks) ∧
    (chatKeywordGroup1 (strToLower m) = false →
      chatKeywordGroup2 (strToLower m) = false →
      includesSubstr (strToLower m) "thank" = false →
      includesSubstr (strToLower m) "mood" = true → chatbotReply m = replyMood) ∧
    (chatKeywordGroup1 (strToLower m) = false →
      chatKeywordGroup2 (strToLower m) = false →
      includesSubstr (strToLower m) "thank" = false →
      includesSubstr (strToLower m) "mood" = false → chatbotReply m = replyDefault) :=
  ⟨fun h1 => by simp [chatbotReply, h1],
   fun h1 h2 => by simp [chatbotReply, h1, h2],
   fun h1 h2 h3 => by simp [chatbotReply, h1, h2, h3],
   fun h1 h2 h3 h4 => by simp [chatbotReply, h1, h2, h3, h4],
   fun h1 h2 h3 h4 => by simp [chatbotReply, h1, h2, h3, h4]⟩

/-- Witness for claim C4 on the message "Thank you", which matches only
the thank branch. -/
theorem claim4_witness : chatbotReply "Thank you" = replyThanks :=
  (claim4_canned_replies "Thank you").2.2.1 (by decide) (by decide) (by decide)

/-- Claim C5: every operation that changes the chat message list only
appends at the end, leaving previously stored messages and their order
unchanged: sending a user message, the delayed bot reply, the welcome
effect, and the mood-change response. -/
theorem claim5_messages_append_only (now : Nat) (s : ChatState)
    (sentText moodResponse : String) (currentMood : Option String) :
    (∃ t, (handleSendMessage now s).1.messages = s.messages ++ t) ∧
    (∃ t, (botResponseTimeout sentText now s).messages = s.messages ++ t) ∧
    (∃ t, (welcomeEffect now s).messages = s.messages ++ t) ∧
    (∃ t, (moodResponseEffect currentMood moodResponse now s).messages =
      s.messages ++ t) := by
  refine ⟨?_, ⟨_, rfl⟩, ?_, ?_⟩
  · unfold handleSendMessage
    split_ifs with h
    · exact ⟨[], by simp⟩
    · exact ⟨_, rfl⟩
  · unfold welcomeEffect
    split_ifs with h
    · have hnil : s.messages = [] := List.length_eq_zero.mp h.2
      exact ⟨[welcomeMessage now], by simp [hnil]⟩
    · exact ⟨[], by simp⟩
  · unfold moodResponseEffect
    cases currentMood with
    | none => exact ⟨[], by simp⟩
    | some mood =>
      dsimp only
      split_ifs with h
      · exact ⟨_, rfl⟩
      · exact ⟨[], by simp⟩

/-- Claim C10: a draft that trims to empty makes `handleSendMessage` a
no-op: the state (message list, typing flag, draft) is unchanged and no
bot response is scheduled. -/
theorem claim10_empty_message_noop (now : Nat) (s : ChatState)
    (h : strTrim s.message = "") :
    handleSendMessage now s = (s, none) := by
  unfold handleSendMessage
  simp [h]

/-- Witness for claim C10 on a whitespace-only draft. -/
theorem claim10_witness :
    handleSendMessage 5
      { isOpen := true, isMinimized := false, message := "   ",
        messages := [], isTyping := false } =
    ({ isOpen := true, isMinimized := false, message := "   ",
        messages := [], isTyping := false }, none) :=
  claim10_empty_message_noop 5
    { isOpen := true, isMinimized := false, message := "   ",
      messages := [], isTyping := false } (by decide)

/-- Claim C2 as stated is false for the first recipe-card variant: the
backup URL substituted by its error callback embeds the stringified
`Math.random()` value, so two calls with different random values replace
the source with different URLs — not a fixed static URL. -/
theorem claim2_counterexample :
    getBackupImageUrl0 "pasta" "0.123" ≠ getBackupImageUrl0 "pasta" "0.456" := by
  decide

/-- Claim C2, amended: in the second recipe-card variant every image-load
error callback substitutes a fixed static URL (independent of the state,
the recipe, randomness and time), while in the first variant the error
callback substitutes the backup URL built from the recipe name and a
fresh random value. -/
theorem claim2_error_fallback_urls (s : RC1State) (recipeName rand : String)
    (s0 : RC0State) :
    (RC1handleImageError s).imageUrl = imgTagErrorFallbackUrl ∧
    (RC1onError s).imageUrl = onErrorFallbackUrl ∧
    (RC0handleImageError recipeName rand s0).imageUrl =
      getBackupImageUrl0 recipeName rand ∧
    (RC0handleImageError recipeName rand s0).imageError = true :=
  ⟨rfl, rfl, rfl, rfl⟩

/-- Claim C6: the image-loading effect of the second variant arms a
5000 ms timeout as loading begins; if the timer fires while the card is
still in the state the effect produced (neither loaded nor errored), the
source becomes the backup placeholder URL and the loading flag clears;
`onload` and `onerror` both cancel the timer. -/
theorem claim6_image_timeout (recipeName : String) (h : recipeName ≠ "")
    (s : RC1State) (src : String) :
    imageLoadTimeoutMs = 5000 ∧
    (RC1effectStart recipeName s).timerArmed = true ∧
    (RC1effectStart recipeName s).imageLoading = true ∧
    RC1timeoutFires recipeName (RC1effectStart recipeName s) =
      { imageUrl := getBackupImageUrl1 recipeName, imageLoading := false,
        timerArmed := false } ∧
    (RC1onLoad src (RC1effectStart recipeName s)).timerArmed = false ∧
    (RC1onError (RC1effectStart recipeName s)).timerArmed = false := by
  refine ⟨rfl, ?_⟩
  unfold RC1effectStart RC1timeoutFires RC1onLoad RC1onError
  simp [h]

/-- Witness for claim C6 with the recipe name "Pasta". -/
theorem claim6_witness :
    imageLoadTimeoutMs = 5000 ∧
    (RC1effectStart "Pasta"
      { imageUrl := "", imageLoading := false, timerArmed := false }).timerArmed = true ∧
    (RC1effectStart "Pasta"
      { imageUrl := "", imageLoading := false, timerArmed := false }).imageLoading = true ∧
    RC1timeoutFires "Pasta" (RC1effectStart "Pasta"
      { imageUrl := "", imageLoading := false, timerArmed := false }) =
      { imageUrl := getBackupImageUrl1 "Pasta", imageLoading := false,
        timerArmed := false } ∧
    (RC1onLoad "x" (RC1effectStart "Pasta"
      { imageUrl := "", imageLoading := false, timerArmed := false })).timerArmed = false ∧
    (RC1onError (RC1effectStart "Pasta"
      { imageUrl := "", imageLoading := false, timerArmed := false })).timerArmed = false :=
  claim6_image_timeout "Pasta" (by decide)
    { imageUrl := "", imageLoading := false, timerArmed := false } "x"

end Moodicious
